import Mathlib

/-!
Verification of the Claims Categorization & Analytics Engine of the
healthcare-claims-an repository.

The definitions below are a shallow embedding of the two source modules
`src/src/lib/rejectionRulesEngine.ts` (class `RejectionRulesEngine`) and the
`AdvancedAnalytics` class. JavaScript numbers are modelled as exact
rationals (`ℚ`); strings as lists of characters (`Str`); JavaScript `NaN`
and the other non-finite values as `Option ℚ := none` where they can arise.
Functions from the `simple-statistics` npm library (`mean`, `median`,
`standardDeviation`, `min`, `max`, `quantile`) are modelled after that
library: they throw on empty input, which is modelled with `Except`.
-/

namespace HCA

/-- Strings are modelled as lists of characters. -/
abbrev Str := List Char

/-- Model of JavaScript `String.prototype.toLowerCase` (per character). -/
def strLower (s : Str) : Str := s.map Char.toLower

/-- Helper: `isPre a b` is true when `a` occurs at the start of `b`. -/
def isPre : Str → Str → Bool
  | [], _ => true
  | _ :: _, [] => false
  | a :: as, b :: bs => a == b && isPre as bs

/-- Model of JavaScript `String.prototype.includes`: `strContains hay need`
is true when `need` occurs contiguously inside `hay`. -/
def strContains : Str → Str → Bool
  | [], need => need.isEmpty
  | c :: t, need => isPre need (c :: t) || strContains t need

/-- Lexicographic order on strings by character code, modelling the default
JavaScript `Array.prototype.sort()` string comparison. -/
def strLe : Str → Str → Bool
  | [], _ => true
  | _ :: _, [] => false
  | a :: as, b :: bs =>
    if a.val < b.val then true
    else if b.val < a.val then false
    else strLe as bs

/-- Stable insertion of an element into a list, used by `insertionSort`. -/
def insertLe (le : α → α → Bool) (a : α) : List α → List α
  | [] => [a]
  | b :: t => if le a b then a :: b :: t else b :: insertLe le a t

/-- Stable sort, modelling JavaScript `Array.prototype.sort` (which the
ECMAScript specification requires to be stable). -/
def insertionSort (le : α → α → Bool) : List α → List α
  | [] => []
  | a :: t => insertLe le a (insertionSort le t)

theorem insertLe_perm (le : α → α → Bool) (a : α) (l : List α) :
    List.Perm (insertLe le a l) (a :: l) := by
  induction l with
  | nil => simp [insertLe]
  | cons b t ih =>
    simp only [insertLe]
    by_cases h : le a b = true
    · rw [if_pos h]
    · rw [if_neg h]
      exact (ih.cons b).trans (List.Perm.swap a b t)

theorem insertionSort_perm (le : α → α → Bool) (l : List α) :
    List.Perm (insertionSort le l) l := by
  induction l with
  | nil => simp [insertionSort]
  | cons a t ih =>
    exact (insertLe_perm le a (insertionSort le t)).trans (ih.cons a)

theorem mem_insertLe {le : α → α → Bool} {a x : α} {l : List α} :
    x ∈ insertLe le a l ↔ x = a ∨ x ∈ l := by
  rw [(insertLe_perm le a l).mem_iff, List.mem_cons]

theorem mem_insertionSort {le : α → α → Bool} {x : α} {l : List α} :
    x ∈ insertionSort le l ↔ x ∈ l :=
  (insertionSort_perm le l).mem_iff

theorem pairwise_insertLe {le : α → α → Bool}
    (total : ∀ a b, le a b = true ∨ le b a = true)
    (htrans : ∀ a b c, le a b = true → le b c = true → le a c = true)
    {a : α} : ∀ {l : List α}, l.Pairwise (fun x y => le x y = true) →
    (insertLe le a l).Pairwise (fun x y => le x y = true)
  | [], _ => by simp [insertLe]
  | b :: t, h => by
    rw [List.pairwise_cons] at h
    obtain ⟨hb, ht⟩ := h
    have ih := @pairwise_insertLe _ le total htrans a t ht
    simp only [insertLe]
    by_cases hab : le a b = true
    · rw [if_pos hab]
      refine List.Pairwise.cons ?_ (List.Pairwise.cons hb ht)
      intro x hx
      rcases List.mem_cons.mp hx with rfl | hx
      · exact hab
      · exact htrans a b x hab (hb x hx)
    · rw [if_neg hab]
      refine List.Pairwise.cons ?_ ih
      intro x hx
      rcases mem_insertLe.mp hx with h1 | hx
      · cases h1
        rcases total a b with h' | h'
        · exact absurd h' hab
        · exact h'
      · exact hb x hx

theorem pairwise_insertionSort {le : α → α → Bool}
    (total : ∀ a b, le a b = true ∨ le b a = true)
    (htrans : ∀ a b c, le a b = true → le b c = true → le a c = true)
    (l : List α) :
    (insertionSort le l).Pairwise (fun x y => le x y = true) := by
  induction l with
  | nil => simp [insertionSort]
  | cons a t ih => exact pairwise_insertLe total htrans ih

/-- Claim status, `ClaimData.status` in `src/src/types/index.ts`. -/
inductive Status
  | approved
  | rejected
  | pending
deriving DecidableEq

/-- Rule category, `RejectionRule.category` in the source types. -/
inductive Category
  | medical
  | technical
deriving DecidableEq

/-- Result category of classification, which may also be `unknown`. -/
inductive RCategory
  | medical
  | technical
  | unknown
deriving DecidableEq

/-- Injection of a rule category into a result category. -/
def Category.toR : Category → RCategory
  | .medical => .medical
  | .technical => .technical

/-- Rule severity, `RejectionRule.severity` in the source types. -/
inductive Severity
  | critical
  | high
  | medium
  | low
deriving DecidableEq

/-- The fields of `ClaimData` (src/src/types/index.ts) that the engine and
analytics read. `submissionDate` is modelled as an integer timestamp in
days; `amount` and `processingTime` as exact rationals; the optional
`rejectionReason` as `Option Str`. Fields the analysed code never reads
(claimNumber, patientName, serviceDate, membershipNumber, policyNumber,
providerName, rejectionCategory, rejectionSubcategory) are omitted. -/
structure ClaimData where
  id : Str
  providerId : Str
  submissionDate : Int
  amount : ℚ
  status : Status
  rejectionReason : Option Str
  processingTime : ℚ
  diagnosisCode : Str
  procedureCode : Str
deriving DecidableEq

/-- The fields of `RejectionRule` (src/src/types/index.ts) that the engine
reads. Display-only fields (nameAr, descriptionAr, subcategoryAr,
fixSuggestionAr, createdDate, lastModified) are omitted. -/
structure RejectionRule where
  id : Str
  name : Str
  description : Str
  category : Category
  subcategory : Str
  keywords : List Str
  keywordsAr : List Str
  codes : List Str
  severity : Severity
  autoFix : Bool
  fixSuggestion : Str
  providerId : Option Str
  providerSpecific : Bool
  isActive : Bool
deriving DecidableEq

/-- The fields of `InsuranceProvider` that the engine reads (`id` and
`specificRules`); display/contact fields are omitted. -/
structure InsuranceProvider where
  id : Str
  specificRules : List RejectionRule
deriving DecidableEq

/-- State of the `RejectionRulesEngine` class: its `rules` (global) and
`providers` fields. -/
structure RejectionRulesEngine where
  rules : List RejectionRule
  providers : List InsuranceProvider
deriving DecidableEq

/-- Source `RejectionRulesEngine.getActiveRules`: all active non
provider-specific global rules, followed (when a provider id is given) by
the active specific rules of that provider. -/
def getActiveRules (e : RejectionRulesEngine) (providerId : Option Str) :
    List RejectionRule :=
  let globalRules := e.rules.filter fun r => r.isActive && !r.providerSpecific
  match providerId with
  | some pid =>
    let provider := e.providers.find? fun p => decide (p.id = pid)
    let providerRules :=
      (provider.map fun p => p.specificRules.filter fun r => r.isActive).getD []
    globalRules ++ providerRules
  | none => globalRules

/-- Source `RejectionRulesEngine.calculateReasonMatch`: up to 0.7 from the
fraction of matched keywords (merged English + Arabic list, keyword
lowercased and searched inside the lowercased reason), plus up to 0.3 from
the fraction of rule codes that occur as substrings of some claim code
(`claimCode.includes(code)` in the source), capped at 1. -/
def calculateReasonMatch (reason : Str) (codes : List Str)
    (rule : RejectionRule) : ℚ :=
  let reasonLower := strLower reason
  let allKeywords := rule.keywords ++ rule.keywordsAr
  let keywordMatches :=
    (allKeywords.filter fun k => strContains reasonLower (strLower k)).length
  let score1 : ℚ :=
    if keywordMatches > 0 then
      (keywordMatches : ℚ) / (allKeywords.length : ℚ) * (7 / 10)
    else 0
  let codeMatches :=
    (rule.codes.filter fun code => codes.any fun cc => strContains cc code).length
  let score2 : ℚ :=
    if codeMatches > 0 then
      (codeMatches : ℚ) / (rule.codes.length : ℚ) * (3 / 10)
    else 0
  min (score1 + score2) 1

/-- Source: `[claim.diagnosisCode, claim.procedureCode].filter(Boolean)` —
the two codes of the claim with empty strings removed. -/
def claimCodes (c : ClaimData) : List Str :=
  [c.diagnosisCode, c.procedureCode].filter fun s => !s.isEmpty

/-- Source `RejectionRulesEngine.findMatchingClaims`: claims passing the
provider-specific guard whose match score is strictly above 0.6. -/
def findMatchingClaims (claims : List ClaimData) (rule : RejectionRule) :
    List ClaimData :=
  claims.filter fun claim =>
    if rule.providerSpecific && !(rule.providerId == some claim.providerId) then
      false
    else
      decide (calculateReasonMatch (claim.rejectionReason.getD [])
        (claimCodes claim) rule > 6 / 10)

/-- Source `RejectionRulesEngine.calculateConfidence`: mean match score of
the matched claims (0 when there are none). -/
def calculateConfidence (ms : List ClaimData) (rule : RejectionRule) : ℚ :=
  if ms.length = 0 then 0
  else
    (ms.foldl
      (fun s c =>
        s + calculateReasonMatch (c.rejectionReason.getD []) (claimCodes c) rule)
      0) / (ms.length : ℚ)

/-- Fixed recovery rates by severity, from `calculateEstimatedSavings`. -/
def recoveryRate : Severity → ℚ
  | .critical => 8 / 10
  | .high => 6 / 10
  | .medium => 4 / 10
  | .low => 2 / 10

/-- Source `RejectionRulesEngine.calculateEstimatedSavings`: 0 unless the
rule is auto-fixable, else total matched amount times the severity rate. -/
def calculateEstimatedSavings (ms : List ClaimData)
    (rule : RejectionRule) : ℚ :=
  if !rule.autoFix then 0
  else (ms.foldl (fun s c => s + c.amount) 0) * recoveryRate rule.severity

/-- Output entries of the Rule Impact Analyzer (`RejectionAnalysis`). -/
structure RejectionAnalysis where
  ruleId : Str
  ruleName : Str
  matchedClaims : List ClaimData
  confidence : ℚ
  suggestedAction : Str
  estimatedSavings : ℚ
deriving DecidableEq

/-- Combined impact score used for the final ordering in `analyzeClaims`:
`estimatedSavings * matchedClaims.length` (source field `matches`). -/
def impactScore (a : RejectionAnalysis) : ℚ :=
  a.estimatedSavings * (a.matchedClaims.length : ℚ)

/-- Source `RejectionRulesEngine.analyzeClaims`: build one analysis per
active rule with at least one matching rejected claim, then sort in
descending order of combined impact. -/
def analyzeClaims (e : RejectionRulesEngine) (claims : List ClaimData) :
    List RejectionAnalysis :=
  let rejectedClaims := claims.filter fun c => decide (c.status = Status.rejected)
  let activeRules := getActiveRules e none
  let analyses := activeRules.filterMap fun rule =>
    let ms := findMatchingClaims rejectedClaims rule
    if ms.length > 0 then
      some { ruleId := rule.id
             ruleName := rule.name
             matchedClaims := ms
             confidence := calculateConfidence ms rule
             suggestedAction := rule.fixSuggestion
             estimatedSavings := calculateEstimatedSavings ms rule }
    else none
  insertionSort (fun a b => decide (impactScore b ≤ impactScore a)) analyses

/-- Medical indicator keywords of `basicCategorization`. -/
def medicalKeywords : List Str :=
  ["medical necessity", "diagnosis", "treatment", "procedure", "clinical",
   "prior authorization", "medical review", "inappropriate",
   "experimental"].map String.toList

/-- Technical indicator keywords of `basicCategorization`. -/
def technicalKeywords : List Str :=
  ["data", "code", "billing", "format", "system", "entry", "documentation",
   "missing", "invalid", "incomplete", "timeout", "error"].map String.toList

/-- Source `RejectionRulesEngine.basicCategorization`: first scan the
medical keyword list, then the technical one, returning on the first
keyword found inside the lowercased reason. -/
def basicCategorization (reason : Str) : RCategory × Str :=
  let reasonLower := strLower reason
  if medicalKeywords.any (fun k => strContains reasonLower k) then
    (RCategory.medical, "Medical Review Required".toList)
  else if technicalKeywords.any (fun k => strContains reasonLower k) then
    (RCategory.technical, "Data/System Issue".toList)
  else (RCategory.unknown, "Unclassified".toList)

/-- Result record of `categorizeRejection`. -/
structure Categorization where
  category : RCategory
  subcategory : Str
  confidence : ℚ
  appliedRule : Option RejectionRule
deriving DecidableEq

/-- Source `RejectionRulesEngine.categorizeRejection`: return the first
active rule (global rules first, then provider rules) whose match score is
strictly above 0.7; otherwise fall back to `basicCategorization` with
confidence 0.5 and no applied rule. -/
def categorizeRejection (e : RejectionRulesEngine) (rejectionReason : Str)
    (providerId : Option Str) (codes : List Str) : Categorization :=
  let activeRules := getActiveRules e providerId
  match activeRules.find?
      (fun rule => decide (calculateReasonMatch rejectionReason codes rule > 7 / 10)) with
  | some rule =>
    { category := rule.category.toR
      subcategory := rule.subcategory
      confidence := calculateReasonMatch rejectionReason codes rule
      appliedRule := some rule }
  | none =>
    let basic := basicCategorization rejectionReason
    { category := basic.1
      subcategory := basic.2
      confidence := 1 / 2
      appliedRule := none }

/-- Source `RejectionRulesEngine.findRuleById`: search the global rules
first, then the provider-specific rules provider by provider. -/
def findRuleById (e : RejectionRulesEngine) (ruleId : Str) :
    Option RejectionRule :=
  match e.rules.find? (fun r => decide (r.id = ruleId)) with
  | some r => some r
  | none =>
    e.providers.findSome? fun p =>
      p.specificRules.find? fun r => decide (r.id = ruleId)

/-- Priority of a training suggestion. -/
inductive Priority
  | high
  | medium
  | low
deriving DecidableEq

/-- Training suggestion record returned by `generateTrainingSuggestions`. -/
structure Suggestion where
  priority : Priority
  title : Str
  description : Str
  actionItems : List Str
  estimatedImpact : Str
deriving DecidableEq

/-- Record produced by `identifyPatterns`. -/
structure PatternSuggestion where
  category : Str
  description : Str
  actionItems : List Str
  estimatedImpact : Str
deriving DecidableEq

/-- Count of analyses whose rule (looked up by id) is medical, the
`medicalCount` of `identifyPatterns`. -/
def medicalAnalysisCount (e : RejectionRulesEngine)
    (analyses : List RejectionAnalysis) : Nat :=
  (analyses.filter fun a =>
    match findRuleById e a.ruleId with
    | some r => decide (r.category = Category.medical)
    | none => false).length

/-- Count of analyses whose rule is technical, the `technicalCount` of
`identifyPatterns`. -/
def technicalAnalysisCount (e : RejectionRulesEngine)
    (analyses : List RejectionAnalysis) : Nat :=
  (analyses.filter fun a =>
    match findRuleById e a.ruleId with
    | some r => decide (r.category = Category.technical)
    | none => false).length

/-- Source `RejectionRulesEngine.identifyPatterns` (continued): the two
fixed pattern suggestions guarded by the category counts. -/
def identifyPatterns (e : RejectionRulesEngine)
    (analyses : List RejectionAnalysis) : List PatternSuggestion :=
  let medicalCount := medicalAnalysisCount e analyses
  let technicalCount := technicalAnalysisCount e analyses
  (if technicalCount > medicalCount then
    [{ category := "Technical Process Improvement".toList
       description :=
         "High number of technical rejections indicates system or process issues".toList
       actionItems :=
         ["Review data entry procedures",
          "Implement additional validation checks",
          "Train staff on proper coding practices",
          "Upgrade system integrations"].map String.toList
       estimatedImpact :=
         "High - Technical issues are often easily preventable".toList }]
  else []) ++
  (if medicalCount > 5 then
    [{ category := "Clinical Documentation".toList
       description :=
         "Significant medical rejections suggest documentation or authorization issues".toList
       actionItems :=
         ["Enhance prior authorization processes",
          "Improve clinical documentation training",
          "Implement clinical decision support tools",
          "Review medical necessity criteria"].map String.toList
       estimatedImpact := "Medium - Requires clinical workflow changes".toList }]
  else [])

/-- Predicate of the `criticalAnalyses` filter in
`generateTrainingSuggestions`: the rule of the analysis exists and has
severity critical or high. -/
def isCriticalOrHighAnalysis (e : RejectionRulesEngine)
    (a : RejectionAnalysis) : Bool :=
  match findRuleById e a.ruleId with
  | some rule =>
    decide (rule.severity = Severity.critical) ||
      decide (rule.severity = Severity.high)
  | none => false

/-- The suggestion record pushed for one critical or high severity rule
analysis in `generateTrainingSuggestions`. -/
def mkRuleSuggestion (fmt : ℚ → Str) (analysis : RejectionAnalysis)
    (rule : RejectionRule) : Suggestion :=
  { priority :=
      if rule.severity = Severity.critical then Priority.high
      else Priority.medium
    title := "Address ".toList ++ rule.name ++ " Issues".toList
    description :=
      Nat.toDigits 10 analysis.matchedClaims.length ++
        " claims affected by ".toList ++ rule.description
    actionItems :=
      [rule.fixSuggestion,
       "Review and update staff training materials".toList,
       "Implement additional quality checks".toList,
       "Monitor progress weekly".toList]
    estimatedImpact :=
      "Potential savings: ".toList ++ fmt analysis.estimatedSavings }

/-- The `ruleSuggestions` accumulated by the first loop of
`generateTrainingSuggestions` (the `continue` on a missing rule is the
`none` branch of the `filterMap`). -/
def ruleSuggestions (e : RejectionRulesEngine) (fmt : ℚ → Str)
    (analyses : List RejectionAnalysis) : List Suggestion :=
  (analyses.filter (isCriticalOrHighAnalysis e)).filterMap fun analysis =>
    match findRuleById e analysis.ruleId with
    | none => none
    | some rule => some (mkRuleSuggestion fmt analysis rule)

/-- The medium-priority suggestion pushed for one identified pattern. -/
def mkPatternSuggestion (pat : PatternSuggestion) : Suggestion :=
  { priority := Priority.medium
    title := "Improve ".toList ++ pat.category ++ " Processes".toList
    description := pat.description
    actionItems := pat.actionItems
    estimatedImpact := pat.estimatedImpact }

/-- Source `RejectionRulesEngine.generateTrainingSuggestions`. The
`fmt` parameter models the external `Intl.NumberFormat` currency
formatter used by `formatCurrency`; the unused provider id parameter of
the source is kept. Suggestions are pushed in order: one per analysis
whose rule severity is critical or high (critical mapping to high
priority, high to medium), then the medium-priority pattern suggestions,
and the list is truncated to the first 10. -/
def generateTrainingSuggestions (e : RejectionRulesEngine) (fmt : ℚ → Str)
    (analyses : List RejectionAnalysis) (_providerId : Option Str) :
    List Suggestion :=
  (ruleSuggestions e fmt analyses ++
    (identifyPatterns e analyses).map mkPatternSuggestion).take 10

/-- Model of `mean` from the simple-statistics library: throws on an empty
list, otherwise the sum divided by the length. -/
def ssMean (x : List ℚ) : Except String ℚ :=
  if x.isEmpty then Except.error "mean requires at least one data point"
  else Except.ok (x.sum / (x.length : ℚ))

/-- Model of `variance` from the simple-statistics library (the mean of the
squared deviations). The library `standardDeviation` is its square root,
which is irrational in general: the embedding stores the variance and
every downstream comparison against `mean + 2 * standardDeviation` is
expressed exactly through `gtMeanPlus2Std` below. -/
def ssVariance (x : List ℚ) : Except String ℚ :=
  if x.isEmpty then Except.error "variance requires at least one data point"
  else
    let m := x.sum / (x.length : ℚ)
    Except.ok (((x.map fun a => (a - m) ^ 2).sum) / (x.length : ℚ))

/-- Model of `min` from the simple-statistics library. -/
def ssMin : List ℚ → Except String ℚ
  | [] => Except.error "min requires at least one data point"
  | a :: t => Except.ok (t.foldl min a)

/-- Model of `max` from the simple-statistics library. -/
def ssMax : List ℚ → Except String ℚ
  | [] => Except.error "max requires at least one data point"
  | a :: t => Except.ok (t.foldl max a)

/-- Model of `quantileSorted` from the simple-statistics library on a
sorted nonempty list: at probability 1 the last element, at 0 the first;
at a non-integer index `length * p` the element at `ceil(index) - 1`;
at an integer index the mean of the two neighbours for even length,
else the element at the index. -/
def ssQuantileSorted (x : List ℚ) (p : ℚ) : ℚ :=
  let idx : ℚ := (x.length : ℚ) * p
  if p = 1 then x.getD (x.length - 1) 0
  else if p = 0 then x.getD 0 0
  else if idx.den ≠ 1 then x.getD (Int.ceil idx - 1).toNat 0
  else if x.length % 2 = 0 then
    (x.getD (idx.num.toNat - 1) 0 + x.getD idx.num.toNat 0) / 2
  else x.getD idx.num.toNat 0

/-- Model of `quantile` from the simple-statistics library: sort, then take
the sorted quantile; throws on an empty list. -/
def ssQuantile (x : List ℚ) (p : ℚ) : Except String ℚ :=
  if x.isEmpty then Except.error "quantile requires at least one data point"
  else
    Except.ok (ssQuantileSorted (insertionSort (fun a b => decide (a ≤ b)) x) p)

/-- Model of `median` from the simple-statistics library: the 0.5
quantile. -/
def ssMedian (x : List ℚ) : Except String ℚ := ssQuantile x (1 / 2)

/-- Mean used inside `calculateCorrelation` (call sites guarantee a
nonempty list, so the total rational division is faithful). -/
def meanQ (x : List ℚ) : ℚ := x.sum / (x.length : ℚ)

/-- Numerator of the Pearson correlation in
`AdvancedAnalytics.calculateCorrelation`: the sum over positions of
`(x_i - mean x) * (y_i - mean y)`. -/
def corrNum (x y : List ℚ) : ℚ :=
  ((x.zip y).map fun p => (p.1 - meanQ x) * (p.2 - meanQ y)).sum

/-- Squared denominator factor of the Pearson correlation: the sum of
squared deviations of one series. The source takes its square root. -/
def corrDenSq (x : List ℚ) : ℚ :=
  (x.map fun xi => (xi - meanQ x) ^ 2).sum

/-- Source `AdvancedAnalytics.calculateCorrelation`, represented exactly:
the result pair `(n, d)` denotes the real number `n / sqrt d` (with
`d > 0`); the value 0 is represented as `(0, 1)`. The source returns 0
when the lengths differ or are 0, and when
`sqrt dx * sqrt dy === 0`, which for the nonnegative sums `dx`, `dy`
holds exactly when `dx * dy = 0`; otherwise it returns the numerator over
`sqrt dx * sqrt dy = sqrt (dx * dy)`. -/
def calculateCorrelation (x y : List ℚ) : ℚ × ℚ :=
  if x.length ≠ y.length ∨ x.length = 0 then (0, 1)
  else
    let n := corrNum x y
    let dx := corrDenSq x
    let dy := corrDenSq y
    if dx * dy = 0 then (0, 1) else (n, dx * dy)

/-- Sign of a rational, used to compare represented correlation values. -/
def qsign (q : ℚ) : Int := if q < 0 then -1 else if q = 0 then 0 else 1

/-- Equality of the real values denoted by two correlation
representations: `n1 / sqrt d1 = n2 / sqrt d2` (for positive `d1`, `d2`)
holds exactly when the signs agree and the squares cross-multiply
equally. -/
def corrValEq (a b : ℚ × ℚ) : Prop :=
  qsign a.1 = qsign b.1 ∧ a.1 ^ 2 * b.2 = b.1 ^ 2 * a.2

instance (a b : ℚ × ℚ) : Decidable (corrValEq a b) := by
  unfold corrValEq
  infer_instance

/-- First-occurrence deduplication helper, modelling the insertion order
of string keys in a JavaScript object. -/
def dedupFirstAux (seen : List Str) : List Str → List Str
  | [] => []
  | a :: t =>
    if a ∈ seen then dedupFirstAux seen t
    else a :: dedupFirstAux (a :: seen) t

/-- First-occurrence deduplication of a list of strings. -/
def dedupFirst (l : List Str) : List Str := dedupFirstAux [] l

/-- Source `AdvancedAnalytics.calculateRejectionRateByProvider`, curried by
provider id: the percentage of rejected claims among the claims of that
provider, 0 when the provider has no claims (in the source an absent key
is read as `undefined` and the caller applies `|| 0`). -/
def rejectionRateOfProvider (claims : List ClaimData) (pid : Str) : ℚ :=
  let total := (claims.filter fun c => decide (c.providerId = pid)).length
  let rejected :=
    (claims.filter fun c =>
      decide (c.providerId = pid) && decide (c.status = Status.rejected)).length
  if total > 0 then (rejected : ℚ) / (total : ℚ) * 100 else 0

/-- Exact test for `a > m + 2 * sqrt v` with `v ≥ 0`: equivalent to
`a - m > 0` together with `(a - m) ^ 2 > 4 * v`. Used to express the
outlier thresholds `mean + 2 * standardDeviation` without square roots. -/
def gtMeanPlus2Std (a m v : ℚ) : Bool :=
  decide (a - m > 0) && decide ((a - m) ^ 2 > 4 * v)

/-- Claim-amount statistics of a statistical summary. `varianceValue`
stores the variance; the source stores its square root as
`standardDeviation`. -/
structure AmountStats where
  mean : ℚ
  median : ℚ
  varianceValue : ℚ
  min : ℚ
  max : ℚ
  quartiles : ℚ × ℚ × ℚ
deriving DecidableEq

/-- Processing-time statistics of a statistical summary. -/
structure TimeStats where
  mean : ℚ
  median : ℚ
  varianceValue : ℚ
deriving DecidableEq

/-- Outlier sets of a statistical summary. -/
structure OutlierSets where
  highValueClaims : List ClaimData
  longProcessingClaims : List ClaimData
deriving DecidableEq

/-- Result of `performStatisticalAnalysis`. `amountVsProcessingTime` is the
represented correlation pair of `calculateCorrelation`. -/
structure StatisticalAnalysis where
  claimAmounts : AmountStats
  processingTimes : TimeStats
  amountVsProcessingTime : ℚ × ℚ
  rejectionRateByProvider : List (Str × ℚ)
  outliers : OutlierSets
deriving DecidableEq

/-- Source `AdvancedAnalytics.identifyOutliers`: claims with amount above
`mean + 2 * stddev` of amounts, and claims with processing time above the
analogous processing-time threshold. -/
def identifyOutliers (claims : List ClaimData) (aStats : AmountStats)
    (pStats : TimeStats) : OutlierSets :=
  { highValueClaims :=
      claims.filter fun c =>
        gtMeanPlus2Std c.amount aStats.mean aStats.varianceValue
    longProcessingClaims :=
      claims.filter fun c =>
        gtMeanPlus2Std c.processingTime pStats.mean pStats.varianceValue }

/-- Source `AdvancedAnalytics.performStatisticalAnalysis`: throws on an
empty claim list, filters amounts and processing times to positive values
independently, computes the library statistics of both series (the library
functions themselves throw on empty series), the represented correlation
of the two filtered series, the per-provider rejection rates and the
outlier sets. -/
def performStatisticalAnalysis (claims : List ClaimData) :
    Except String StatisticalAnalysis :=
  if claims.length = 0 then
    Except.error "No claims data provided for analysis"
  else do
    let amounts := (claims.map fun c => c.amount).filter fun a => decide (a > 0)
    let processingTimes :=
      (claims.map fun c => c.processingTime).filter fun p => decide (p > 0)
    let am ← ssMean amounts
    let amed ← ssMedian amounts
    let avar ← ssVariance amounts
    let amin ← ssMin amounts
    let amax ← ssMax amounts
    let q1 ← ssQuantile amounts (1 / 4)
    let q2 ← ssQuantile amounts (1 / 2)
    let q3 ← ssQuantile amounts (3 / 4)
    let pm ← ssMean processingTimes
    let pmed ← ssMedian processingTimes
    let pvar ← ssVariance processingTimes
    let aStats : AmountStats :=
      { mean := am, median := amed, varianceValue := avar,
        min := amin, max := amax, quartiles := (q1, q2, q3) }
    let pStats : TimeStats := { mean := pm, median := pmed, varianceValue := pvar }
    Except.ok
      { claimAmounts := aStats
        processingTimes := pStats
        amountVsProcessingTime := calculateCorrelation amounts processingTimes
        rejectionRateByProvider :=
          (dedupFirst (claims.map fun c => c.providerId)).map fun pid =>
            (pid, rejectionRateOfProvider claims pid)
        outliers := identifyOutliers claims aStats pStats }

/-- Monthly trend direction. -/
inductive Trend
  | increasing
  | decreasing
  | stable
deriving DecidableEq

/-- Number of claims recorded for a month key in the grouped data (keys
coming from `groupClaimsByMonth` are present, so the 0 default of the
lookup is never used on source inputs). -/
def monthCount (monthlyData : List (Str × List ClaimData)) (key : Str) : Nat :=
  ((monthlyData.find? fun p => decide (p.1 = key)).map fun p => p.2.length).getD 0

/-- Source `AdvancedAnalytics.determineTrend`: sort the month keys, find
the position of the current month (`indexOf` yields -1 when absent, which
the guard `currentIndex < 1` sends to stable, as it does the earliest
month), then compare the claim count against the previous month with the
strict 1.1 and 0.9 factors. -/
def determineTrend (currentMonth : Str)
    (monthlyData : List (Str × List ClaimData)) : Trend :=
  let months := insertionSort strLe (monthlyData.map fun p => p.1)
  match months.findIdx? fun m => decide (m = currentMonth) with
  | none => Trend.stable
  | some 0 => Trend.stable
  | some (i + 1) =>
    let previousMonth := months.getD i []
    let currentCount := monthCount monthlyData currentMonth
    let previousCount := monthCount monthlyData previousMonth
    if (currentCount : ℚ) > (previousCount : ℚ) * (11 / 10) then Trend.increasing
    else if (currentCount : ℚ) < (previousCount : ℚ) * (9 / 10) then Trend.decreasing
    else Trend.stable

/-- JavaScript division of two finite numbers: `none` stands for a
non-finite result. In the modelled code every division with denominator 0
also has numerator 0 (counts of a subset over counts of the whole), so
`none` always denotes `NaN`. -/
def jsDiv (a b : ℚ) : Option ℚ := if b = 0 then none else some (a / b)

/-- Subtraction propagating non-finite operands. -/
def optSub : Option ℚ → Option ℚ → Option ℚ
  | some a, some b => some (a - b)
  | _, _ => none

/-- Multiplication by a finite constant, propagating non-finite values. -/
def optMul (x : Option ℚ) (c : ℚ) : Option ℚ := x.map fun a => a * c

/-- Division on possibly non-finite values; a denominator of 0 or any
non-finite operand yields a non-finite result. -/
def optDiv : Option ℚ → Option ℚ → Option ℚ
  | some a, some b => if b = 0 then none else some (a / b)
  | _, _ => none

/-- JavaScript comparison `v > 0`, which is false for `NaN` (the only
non-finite value reaching this guard in the modelled code). -/
def jsGtZero : Option ℚ → Bool
  | some a => decide (a > 0)
  | none => false

/-- JavaScript `v || 0`: `NaN` and 0 become 0, anything else is kept. -/
def orZero : Option ℚ → ℚ
  | some a => a
  | none => 0

/-- Year-over-year comparison record of `calculateYearOverYearComparison`.
`Option ℚ` fields record possibly non-finite numbers. -/
structure YearOverYear where
  currentYear : Int
  previousYear : Int
  growthRate : Option ℚ
  rejectionRateChange : Option ℚ
deriving DecidableEq

/-- Source `AdvancedAnalytics.calculateYearOverYearComparison`. The
calendar projection from a timestamp to its year is passed as `yearOf`
and the current year as a parameter (the source reads the system clock).
Returns `none` (source: `undefined`) when the previous year has no
claims. When the current year has no claims its rejection rate is the
division 0/0, `NaN`, and `rejectionRateChange` becomes `NaN`. -/
def calculateYearOverYearComparison (yearOf : Int → Int) (currentYear : Int)
    (claims : List ClaimData) : Option YearOverYear :=
  let previousYear := currentYear - 1
  let currentYearClaims :=
    claims.filter fun c => decide (yearOf c.submissionDate = currentYear)
  let previousYearClaims :=
    claims.filter fun c => decide (yearOf c.submissionDate = previousYear)
  if previousYearClaims.length = 0 then none
  else
    let currentRejectionRate :=
      optMul (jsDiv
        ((currentYearClaims.filter fun c => decide (c.status = Status.rejected)).length : ℚ)
        (currentYearClaims.length : ℚ)) 100
    let previousRejectionRate :=
      optMul (jsDiv
        ((previousYearClaims.filter fun c => decide (c.status = Status.rejected)).length : ℚ)
        (previousYearClaims.length : ℚ)) 100
    some
      { currentYear := currentYear
        previousYear := previousYear
        growthRate :=
          optMul (jsDiv
            ((currentYearClaims.length : ℚ) - (previousYearClaims.length : ℚ))
            (previousYearClaims.length : ℚ)) 100
        rejectionRateChange := optSub currentRejectionRate previousRejectionRate }

/-- Summary of one 30-day period in `compareTimePeriods` (the formatted
date strings of the source are omitted). The reported rejection rate is
guarded by `|| 0` in the source and is therefore always finite. -/
structure PeriodSummary where
  totalClaims : Nat
  rejectionRate : ℚ
deriving DecidableEq

/-- Result of `compareTimePeriods`. The percentage change is not guarded
in the source and may be non-finite (`none`). -/
structure TimeComparison where
  currentPeriod : PeriodSummary
  previousPeriod : PeriodSummary
  percentageChange : Option ℚ
deriving DecidableEq

/-- Source `AdvancedAnalytics.compareTimePeriods`: the last 30 days versus
the 30 days before them (`now` is the clock reading in days). Each period
reports its claim count and rejection rate with the `|| 0` guard; the
percentage change divides by the previous rate when that rate compares
greater than 0, and uses the unguarded current rate, so it is `NaN` when
the current period is empty and the previous rate is positive. -/
def compareTimePeriods (now : Int) (claims : List ClaimData) : TimeComparison :=
  let thirtyDaysAgo := now - 30
  let sixtyDaysAgo := now - 60
  let currentPeriodClaims :=
    claims.filter fun c => decide (c.submissionDate ≥ thirtyDaysAgo)
  let previousPeriodClaims :=
    claims.filter fun c =>
      decide (c.submissionDate ≥ sixtyDaysAgo) &&
        decide (c.submissionDate < thirtyDaysAgo)
  let currentRejectionRate :=
    optMul (jsDiv
      ((currentPeriodClaims.filter fun c => decide (c.status = Status.rejected)).length : ℚ)
      (currentPeriodClaims.length : ℚ)) 100
  let previousRejectionRate :=
    optMul (jsDiv
      ((previousPeriodClaims.filter fun c => decide (c.status = Status.rejected)).length : ℚ)
      (previousPeriodClaims.length : ℚ)) 100
  { currentPeriod :=
      { totalClaims := currentPeriodClaims.length
        rejectionRate := orZero currentRejectionRate }
    previousPeriod :=
      { totalClaims := previousPeriodClaims.length
        rejectionRate := orZero previousRejectionRate }
    percentageChange :=
      if jsGtZero previousRejectionRate then
        optMul (optDiv (optSub currentRejectionRate previousRejectionRate)
          previousRejectionRate) 100
      else some 0 }

/-- Per-claim prediction record of `buildClaimApprovalModel`. -/
structure Prediction where
  claimId : Str
  predictedStatus : Status
  confidence : ℚ
  riskFactors : List Str
deriving DecidableEq

/-- Per-claim scoring of `buildClaimApprovalModel`: start at 0.5, subtract
0.2 for amount above 10000, 0.15 for a provider rejection rate above 20,
0.1 for processing time above 15, clamp to [0.1, 0.9]; predict approved
exactly when the clamped score is above 0.5. The source rounds the
reported confidence to 2 decimals; every reachable score is an exact
multiple of 1/20 so the rounding is the identity and is omitted. -/
def predictClaim (claims : List ClaimData) (claim : ClaimData) : Prediction :=
  let start : ℚ := 1 / 2
  let s1 :=
    if claim.amount > 10000 then
      (start - 2 / 10, ["High claim amount".toList])
    else (start, ([] : List Str))
  let providerRejectionRate := rejectionRateOfProvider claims claim.providerId
  let s2 :=
    if providerRejectionRate > 20 then
      (s1.1 - 15 / 100, s1.2 ++ ["High provider rejection rate".toList])
    else s1
  let s3 :=
    if claim.processingTime > 15 then
      (s2.1 - 1 / 10, s2.2 ++ ["Extended processing time".toList])
    else s2
  let confidence := max (1 / 10) (min (9 / 10) s3.1)
  { claimId := claim.id
    predictedStatus :=
      if confidence > 1 / 2 then Status.approved else Status.rejected
    confidence := confidence
    riskFactors := s3.2 }

/-- Source `AdvancedAnalytics.buildClaimApprovalModel`: one prediction per
claim, and the accuracy percentage computed by re-finding each predicted
claim by id and comparing its recorded status with the prediction. -/
def buildClaimApprovalModel (claims : List ClaimData) : ℚ × List Prediction :=
  let predictions := claims.map (predictClaim claims)
  let correctPredictions := predictions.filter fun p =>
    match claims.find? (fun c => decide (c.id = p.claimId)) with
    | some actualClaim => decide (actualClaim.status = p.predictedStatus)
    | none => false
  (if predictions.length > 0 then
    (correctPredictions.length : ℚ) / (predictions.length : ℚ) * 100
  else 0, predictions)


/-- Keyword match count written from the specification wording: merged
keyword list, case-insensitive containment in the reason. -/
def specKeywordMatches (reason : Str) (rule : RejectionRule) : Nat :=
  ((rule.keywords ++ rule.keywordsAr).filter fun k =>
    strContains (strLower reason) (strLower k)).length

/-- Keyword score component from the specification wording: matched
fraction of the merged keyword list times 0.7, and 0 for no match. -/
def specKeywordScore (reason : Str) (rule : RejectionRule) : ℚ :=
  if specKeywordMatches reason rule > 0 then
    (specKeywordMatches reason rule : ℚ) /
      (((rule.keywords ++ rule.keywordsAr).length : ℚ)) * (7 / 10)
  else 0

/-- Code match count written from the claim wording of C1: a rule code is
matched when some claim code contains it or it contains some claim code
(substring containment in either direction). -/
def specBidirCodeMatches (codes : List Str) (rule : RejectionRule) : Nat :=
  (rule.codes.filter fun code =>
    codes.any fun cc => strContains cc code || strContains code cc).length

/-- Code score component from the claim wording of C1 (bidirectional). -/
def specBidirCodeScore (codes : List Str) (rule : RejectionRule) : ℚ :=
  if specBidirCodeMatches codes rule > 0 then
    (specBidirCodeMatches codes rule : ℚ) / (rule.codes.length : ℚ) * (3 / 10)
  else 0

/-- Code match count as the source actually computes it: a rule code is
matched only when some claim code contains it (one direction). -/
def specOneWayCodeMatches (codes : List Str) (rule : RejectionRule) : Nat :=
  (rule.codes.filter fun code => codes.any fun cc => strContains cc code).length

/-- Code score component of the source (one-directional containment). -/
def specOneWayCodeScore (codes : List Str) (rule : RejectionRule) : ℚ :=
  if specOneWayCodeMatches codes rule > 0 then
    (specOneWayCodeMatches codes rule : ℚ) / (rule.codes.length : ℚ) * (3 / 10)
  else 0

theorem specOneWayCodeScore_le (codes : List Str) (rule : RejectionRule) :
    specOneWayCodeScore codes rule ≤ 3 / 10 := by
  unfold specOneWayCodeScore
  split
  · have hle : specOneWayCodeMatches codes rule ≤ rule.codes.length :=
      List.length_filter_le _ _
    rename_i hpos
    have hlen : (0 : ℚ) < (rule.codes.length : ℚ) := by
      have : 0 < rule.codes.length := lt_of_lt_of_le hpos hle
      exact_mod_cast this
    have hfrac :
        (specOneWayCodeMatches codes rule : ℚ) / (rule.codes.length : ℚ) ≤ 1 := by
      rw [div_le_one hlen]
      exact_mod_cast hle
    calc (specOneWayCodeMatches codes rule : ℚ) / (rule.codes.length : ℚ) * (3 / 10)
        ≤ 1 * (3 / 10) := by
          apply mul_le_mul_of_nonneg_right hfrac
          norm_num
      _ = 3 / 10 := one_mul _
  · norm_num

/-- Rule fixture for the C1 counterexample: no keywords, single code
"ABC". -/
def ruleC1 : RejectionRule :=
  { id := "r1".toList, name := [], description := [],
    category := Category.technical, subcategory := [],
    keywords := [], keywordsAr := [], codes := ["ABC".toList],
    severity := Severity.low, autoFix := false, fixSuggestion := [],
    providerId := none, providerSpecific := false, isActive := true }

unseal Rat.mul Rat.inv Rat.add Rat.sub in
/-- Claim C1, counterexample: with rule code "ABC" and claim code "B",
the claim code is contained in the rule code, so under the claimed
bidirectional containment the code component would be 0.3; the source
only tests containment of the rule code inside the claim code and scores
0. -/
theorem C1_counterexample :
    calculateReasonMatch [] ["B".toList] ruleC1 = 0 ∧
      specBidirCodeScore ["B".toList] ruleC1 = 3 / 10 ∧ (0 : ℚ) ≠ 3 / 10 := by
  refine ⟨by decide, by decide, by norm_num⟩

/-- Claim C1 (amended): the match score is the keyword component plus the
code component capped at 1, where a claim code matches a rule code only
when the rule code is a substring of the claim code (one direction, not
bidirectional); the code component is (matched code count / total rule
code count) times 0.3. With no keywords the score is exactly the code
component. -/
theorem C1_code_component (reason : Str) (codes : List Str)
    (rule : RejectionRule) :
    calculateReasonMatch reason codes rule =
      min (specKeywordScore reason rule + specOneWayCodeScore codes rule) 1 ∧
    (rule.keywords = [] → rule.keywordsAr = [] →
      calculateReasonMatch reason codes rule = specOneWayCodeScore codes rule) := by
  constructor
  · rfl
  · intro h1 h2
    have hkw : specKeywordScore reason rule = 0 := by
      unfold specKeywordScore specKeywordMatches
      rw [h1, h2]
      simp
    have : calculateReasonMatch reason codes rule =
        min (specKeywordScore reason rule + specOneWayCodeScore codes rule) 1 := rfl
    rw [this, hkw, zero_add]
    exact min_eq_left (le_trans (specOneWayCodeScore_le codes rule) (by norm_num))

/-- Witness for C1: the amended statement evaluated at the counterexample
input. -/
theorem C1_code_component_witness :
    calculateReasonMatch [] ["B".toList] ruleC1 =
      specOneWayCodeScore ["B".toList] ruleC1 :=
  (C1_code_component [] ["B".toList] ruleC1).2 rfl rfl

/-- Rule fixture for C2: one keyword, one code, active global rule; a
reason equal to the keyword and an empty code list score exactly 0.7. -/
def ruleC2 : RejectionRule :=
  { id := "r2".toList, name := [], description := [],
    category := Category.medical, subcategory := "sub".toList,
    keywords := ["alpha".toList], keywordsAr := [], codes := ["X".toList],
    severity := Severity.low, autoFix := false, fixSuggestion := [],
    providerId := none, providerSpecific := false, isActive := true }

/-- Engine fixture for C2. -/
def engC2 : RejectionRulesEngine := { rules := [ruleC2], providers := [] }

unseal Rat.mul Rat.inv Rat.add Rat.sub in
/-- Claim C2, counterexample: the match score of the reason "alpha"
against `ruleC2` is exactly 0.7, yet classification does not apply the
rule (the threshold `> 0.7` is strict), returning the keyword fallback
with no applied rule. -/
theorem C2_counterexample :
    calculateReasonMatch "alpha".toList [] ruleC2 = 7 / 10 ∧
      (categorizeRejection engC2 "alpha".toList none []).appliedRule = none := by
  refine ⟨by decide, by decide⟩

/-- Helper: when no active rule scores strictly above 0.7 the classifier
returns the keyword fallback with confidence 0.5 and no applied rule. -/
theorem categorizeRejection_of_no_rule (e : RejectionRulesEngine)
    (reason : Str) (pid : Option Str) (codes : List Str)
    (h : ∀ r ∈ getActiveRules e pid,
      calculateReasonMatch reason codes r ≤ 7 / 10) :
    categorizeRejection e reason pid codes =
      { category := (basicCategorization reason).1
        subcategory := (basicCategorization reason).2
        confidence := 1 / 2
        appliedRule := none } := by
  have hnone : (getActiveRules e pid).find?
      (fun rule => decide (calculateReasonMatch reason codes rule > 7 / 10)) = none := by
    rw [List.find?_eq_none]
    intro r hr
    simp only [decide_eq_true_eq, not_lt]
    exact h r hr
  unfold categorizeRejection
  simp only [hnone]

/-- Claim C2 (amended): a match score of at most 0.6 — in particular
exactly 0.6 — excludes a claim from the impact matches of a rule, and a
match score of at most 0.7 — in particular exactly 0.7 — does not cause
a rule to be applied in classification: both thresholds are strict. -/
theorem C2_thresholds :
    (∀ (claims : List ClaimData) (rule : RejectionRule) (claim : ClaimData),
      calculateReasonMatch (claim.rejectionReason.getD [])
          (claimCodes claim) rule ≤ 6 / 10 →
        claim ∉ findMatchingClaims claims rule) ∧
    (∀ (e : RejectionRulesEngine) (reason : Str) (pid : Option Str)
        (codes : List Str),
      (∀ r ∈ getActiveRules e pid,
        calculateReasonMatch reason codes r ≤ 7 / 10) →
      (categorizeRejection e reason pid codes).appliedRule = none) := by
  constructor
  · intro claims rule claim hle hmem
    unfold findMatchingClaims at hmem
    have hp := (List.mem_filter.mp hmem).2
    by_cases hps : (rule.providerSpecific &&
        !(rule.providerId == some claim.providerId)) = true
    · rw [if_pos hps] at hp
      exact Bool.false_ne_true hp
    · rw [if_neg hps] at hp
      rw [decide_eq_true_eq] at hp
      exact absurd hp (not_lt.mpr hle)
  · intro e reason pid codes h
    rw [categorizeRejection_of_no_rule e reason pid codes h]

/-- Claim fixture for the C2 witness: a claim whose reason matches no
keyword of `ruleC2`, scoring 0. -/
def claimC2w : ClaimData :=
  { id := "c1".toList, providerId := "p".toList, submissionDate := 0,
    amount := 10, status := Status.rejected,
    rejectionReason := some "other".toList, processingTime := 1,
    diagnosisCode := [], procedureCode := [] }

unseal Rat.mul Rat.inv Rat.add Rat.sub in
/-- Witness for C2: the amended statement applied at concrete inputs. -/
theorem C2_thresholds_witness :
    claimC2w ∉ findMatchingClaims [claimC2w] ruleC2 ∧
      (categorizeRejection engC2 "alpha".toList none []).appliedRule = none := by
  constructor
  · exact C2_thresholds.1 [claimC2w] ruleC2 claimC2w (by decide)
  · exact C2_thresholds.2 engC2 "alpha".toList none [] (by decide)

/-- Helper: `find?` over a decomposed list whose prefix all fails and
whose head of the suffix passes. -/
theorem find?_append_first {α : Type} {p : α → Bool} :
    ∀ (l₁ : List α) (r : α) (l₂ : List α),
      (∀ x ∈ l₁, p x = false) → p r = true →
      (l₁ ++ r :: l₂).find? p = some r
  | [], r, l₂, _, h2 => by simp [List.find?_cons_of_pos, h2]
  | a :: t, r, l₂, h1, h2 => by
    rw [List.cons_append, List.find?_cons_of_neg]
    · exact find?_append_first t r l₂ (fun x hx => h1 x (List.mem_cons_of_mem a hx)) h2
    · simp [h1 a (List.mem_cons_self a t)]

/-- Claim C3: classification scans the active rules (global rules first,
then provider rules) in order and returns the category, subcategory and
score of the first rule whose score strictly exceeds 0.7; when no rule
qualifies it returns the keyword fallback of `basicCategorization` with
confidence exactly 0.5 and no applied rule. -/
theorem C3_first_match_and_fallback (e : RejectionRulesEngine) (reason : Str)
    (pid : Option Str) (codes : List Str) :
    (∀ (l₁ : List RejectionRule) (r : RejectionRule) (l₂ : List RejectionRule),
      getActiveRules e pid = l₁ ++ r :: l₂ →
      (∀ r' ∈ l₁, calculateReasonMatch reason codes r' ≤ 7 / 10) →
      calculateReasonMatch reason codes r > 7 / 10 →
      categorizeRejection e reason pid codes =
        { category := r.category.toR
          subcategory := r.subcategory
          confidence := calculateReasonMatch reason codes r
          appliedRule := some r }) ∧
    ((∀ r ∈ getActiveRules e pid,
        calculateReasonMatch reason codes r ≤ 7 / 10) →
      categorizeRejection e reason pid codes =
        { category := (basicCategorization reason).1
          subcategory := (basicCategorization reason).2
          confidence := 1 / 2
          appliedRule := none }) := by
  constructor
  · intro l₁ r l₂ hdec h1 h2
    unfold categorizeRejection
    have hfind : (getActiveRules e pid).find?
        (fun rule => decide (calculateReasonMatch reason codes rule > 7 / 10)) =
          some r := by
      rw [hdec]
      apply find?_append_first
      · intro x hx
        exact decide_eq_false (not_lt.mpr (h1 x hx))
      · exact decide_eq_true h2
    simp only [hfind]
  · exact categorizeRejection_of_no_rule e reason pid codes

/-- Rule fixture for the C3 witness: scores 1 on the reason "beta" with
claim code "D1" (keyword and code fully matched). -/
def ruleC3 : RejectionRule :=
  { id := "r3".toList, name := [], description := [],
    category := Category.technical, subcategory := "Data".toList,
    keywords := ["beta".toList], keywordsAr := [], codes := ["D1".toList],
    severity := Severity.medium, autoFix := false, fixSuggestion := [],
    providerId := none, providerSpecific := false, isActive := true }

/-- Engine fixture for the C3 witness. -/
def engC3 : RejectionRulesEngine := { rules := [ruleC3], providers := [] }

/-- Empty engine fixture for the fallback half of the C3 witness. -/
def engC3e : RejectionRulesEngine := { rules := [], providers := [] }

unseal Rat.mul Rat.inv Rat.add Rat.sub in
/-- Witness for C3: the theorem applied at concrete inputs, one hitting
the first qualifying rule and one hitting the keyword fallback. -/
theorem C3_first_match_and_fallback_witness :
    categorizeRejection engC3 "beta".toList none ["D1".toList] =
      { category := ruleC3.category.toR
        subcategory := ruleC3.subcategory
        confidence := calculateReasonMatch "beta".toList ["D1".toList] ruleC3
        appliedRule := some ruleC3 } ∧
    categorizeRejection engC3e "mystery".toList none [] =
      { category := (basicCategorization "mystery".toList).1
        subcategory := (basicCategorization "mystery".toList).2
        confidence := 1 / 2
        appliedRule := none } := by
  constructor
  · exact (C3_first_match_and_fallback engC3 "beta".toList none ["D1".toList]).1
      [] ruleC3 [] (by decide) (by intro r hr; cases hr) (by decide)
  · exact (C3_first_match_and_fallback engC3e "mystery".toList none []).2
      (by intro r hr; cases hr)


/-- Rule fixture for C7: auto-fixable critical rule matched by reason
"aaa". -/
def ruleC7A : RejectionRule :=
  { id := "rA".toList, name := "A".toList, description := [],
    category := Category.technical, subcategory := [],
    keywords := ["aaa".toList], keywordsAr := [], codes := [],
    severity := Severity.critical, autoFix := true, fixSuggestion := [],
    providerId := none, providerSpecific := false, isActive := true }

/-- Rule fixture for C7: auto-fixable critical rule matched by reason
"bbb". -/
def ruleC7B : RejectionRule :=
  { id := "rB".toList, name := "B".toList, description := [],
    category := Category.technical, subcategory := [],
    keywords := ["bbb".toList], keywordsAr := [], codes := [],
    severity := Severity.critical, autoFix := true, fixSuggestion := [],
    providerId := none, providerSpecific := false, isActive := true }

/-- Engine fixture for C7. -/
def engC7 : RejectionRulesEngine := { rules := [ruleC7A, ruleC7B], providers := [] }

/-- Rejected claim matched by `ruleC7A`, amount 625 (two of them total
1250, giving estimated savings 1250 x 0.8 = 1000). -/
def claimC7A : ClaimData :=
  { id := "ca".toList, providerId := "p".toList, submissionDate := 0,
    amount := 625, status := Status.rejected,
    rejectionReason := some "aaa".toList, processingTime := 1,
    diagnosisCode := [], procedureCode := [] }

/-- Rejected claim matched by `ruleC7B`, amount 37.5 (ten of them total
375, giving estimated savings 375 x 0.8 = 300). -/
def claimC7B : ClaimData :=
  { id := "cb".toList, providerId := "p".toList, submissionDate := 0,
    amount := 75 / 2, status := Status.rejected,
    rejectionReason := some "bbb".toList, processingTime := 1,
    diagnosisCode := [], procedureCode := [] }

/-- Claim set fixture for C7: rule A matches 2 claims (impact
1000 x 2 = 2000), rule B matches 10 claims (impact 300 x 10 = 3000). -/
def claimsC7 : List ClaimData :=
  List.replicate 2 claimC7A ++ List.replicate 10 claimC7B

unseal Rat.mul Rat.inv Rat.add Rat.sub in
/-- Claim C7: the Rule Impact Analyzer output contains no entry with zero
matched claims and is sorted in descending order of
`estimatedSavings x matches.length`; in particular a rule with savings
300 and 10 matches (combined impact 3000) ranks before a rule with
savings 1000 and 2 matches (combined impact 2000). -/
theorem C7_impact_ranking :
    (∀ (e : RejectionRulesEngine) (claims : List ClaimData),
      ((analyzeClaims e claims).all fun a => !a.matchedClaims.isEmpty) = true ∧
      (analyzeClaims e claims).Pairwise
        fun a b => impactScore b ≤ impactScore a) ∧
    ((analyzeClaims engC7 claimsC7).map fun a => a.ruleId) =
      ["rB".toList, "rA".toList] := by
  constructor
  · intro e claims
    constructor
    · rw [List.all_eq_true]
      intro a ha
      have hmem := mem_insertionSort.mp ha
      obtain ⟨rule, _, hf⟩ := List.mem_filterMap.mp hmem
      simp only at hf
      split at hf
      · rename_i hpos
        cases hf
        simp only [Bool.not_eq_eq_eq_not, Bool.not_true]
        rw [List.isEmpty_eq_false_iff_exists_mem]
        exact List.exists_mem_of_length_pos hpos
      · cases hf
    · have hp := @pairwise_insertionSort _
        (fun a b => decide (impactScore b ≤ impactScore a))
        (fun a b => by
          rcases le_total (impactScore b) (impactScore a) with h | h
          · exact Or.inl (decide_eq_true h)
          · exact Or.inr (decide_eq_true h))
        (fun a b c hab hbc => by
          rw [decide_eq_true_eq] at hab hbc ⊢
          exact le_trans hbc hab)
        ((getActiveRules e none).filterMap fun rule =>
          let ms := findMatchingClaims
            (claims.filter fun c => decide (c.status = Status.rejected)) rule
          if ms.length > 0 then
            some { ruleId := rule.id
                   ruleName := rule.name
                   matchedClaims := ms
                   confidence := calculateConfidence ms rule
                   suggestedAction := rule.fixSuggestion
                   estimatedSavings := calculateEstimatedSavings ms rule }
          else none)
      exact hp.imp fun h => of_decide_eq_true h
  · decide

/-- Dummy claim used to populate the month buckets of the C9 fixture. -/
def dummyClaimC9 : ClaimData :=
  { id := [], providerId := [], submissionDate := 0, amount := 0,
    status := Status.approved, rejectionReason := none,
    processingTime := 0, diagnosisCode := [], procedureCode := [] }

/-- Grouped monthly data fixture for C9: 100 claims in 2024-01 and `n`
claims in 2024-02. -/
def mdC9 (n : Nat) : List (Str × List ClaimData) :=
  [("2024-01".toList, List.replicate 100 dummyClaimC9),
   ("2024-02".toList, List.replicate n dummyClaimC9)]

/-- Helper: characterization of the threshold if-chain of
`determineTrend` for a nonnegative previous count. -/
theorem trendIf_spec (curr prev : ℚ) (hprev : 0 ≤ prev) :
    ((if curr > prev * (11 / 10) then Trend.increasing
      else if curr < prev * (9 / 10) then Trend.decreasing
      else Trend.stable) = Trend.increasing ↔ curr > prev * (11 / 10)) ∧
    ((if curr > prev * (11 / 10) then Trend.increasing
      else if curr < prev * (9 / 10) then Trend.decreasing
      else Trend.stable) = Trend.decreasing ↔ curr < prev * (9 / 10)) ∧
    ((if curr > prev * (11 / 10) then Trend.increasing
      else if curr < prev * (9 / 10) then Trend.decreasing
      else Trend.stable) = Trend.stable ↔
        (¬ curr > prev * (11 / 10) ∧ ¬ curr < prev * (9 / 10))) := by
  by_cases h1 : curr > prev * (11 / 10)
  · have h2 : ¬ curr < prev * (9 / 10) := by
      intro hlt
      linarith
    rw [if_pos h1]
    exact ⟨iff_of_true rfl h1, iff_of_false (by decide) h2,
      iff_of_false (by decide) fun hc => hc.1 h1⟩
  · rw [if_neg h1]
    by_cases h2 : curr < prev * (9 / 10)
    · rw [if_pos h2]
      exact ⟨iff_of_false (by decide) h1, iff_of_true rfl h2,
        iff_of_false (by decide) fun hc => hc.2 h2⟩
    · rw [if_neg h2]
      exact ⟨iff_of_false (by decide) h1, iff_of_false (by decide) h2,
        iff_of_true rfl ⟨h1, h2⟩⟩

unseal Rat.mul Rat.inv Rat.add Rat.sub in
/-- Claim C9: a month is labelled increasing exactly when its claim count
strictly exceeds the previous month count times 1.1, decreasing exactly
when it is strictly below the previous month count times 0.9, stable
otherwise; a month with no predecessor in the sorted key order (or a key
not present, where indexOf yields -1) is stable; 110 claims after 100 is
stable and 111 after 100 is increasing. -/
theorem C9_trend_labels :
    (∀ (md : List (Str × List ClaimData)) (m : Str),
      ((insertionSort strLe (md.map fun p => p.1)).findIdx?
          (fun k => decide (k = m)) = none ∨
        (insertionSort strLe (md.map fun p => p.1)).findIdx?
          (fun k => decide (k = m)) = some 0) →
      determineTrend m md = Trend.stable) ∧
    (∀ (md : List (Str × List ClaimData)) (m : Str) (i : Nat),
      (insertionSort strLe (md.map fun p => p.1)).findIdx?
          (fun k => decide (k = m)) = some (i + 1) →
      ((determineTrend m md = Trend.increasing ↔
          (monthCount md m : ℚ) >
            (monthCount md
              ((insertionSort strLe (md.map fun p => p.1)).getD i []) : ℚ) *
              (11 / 10)) ∧
        (determineTrend m md = Trend.decreasing ↔
          (monthCount md m : ℚ) <
            (monthCount md
              ((insertionSort strLe (md.map fun p => p.1)).getD i []) : ℚ) *
              (9 / 10)) ∧
        (determineTrend m md = Trend.stable ↔
          (¬ (monthCount md m : ℚ) >
            (monthCount md
              ((insertionSort strLe (md.map fun p => p.1)).getD i []) : ℚ) *
              (11 / 10) ∧
           ¬ (monthCount md m : ℚ) <
            (monthCount md
              ((insertionSort strLe (md.map fun p => p.1)).getD i []) : ℚ) *
              (9 / 10))))) ∧
    (determineTrend "2024-02".toList (mdC9 110) = Trend.stable ∧
      determineTrend "2024-02".toList (mdC9 111) = Trend.increasing) := by
  refine ⟨?_, ?_, ?_⟩
  · intro md m h
    unfold determineTrend
    rcases h with h | h <;> simp only [h]
  · intro md m i h
    have hspec := trendIf_spec (monthCount md m : ℚ)
      (monthCount md
        ((insertionSort strLe (md.map fun p => p.1)).getD i []) : ℚ)
      (Nat.cast_nonneg _)
    unfold determineTrend
    simp only [h]
    exact hspec
  · constructor <;> decide


/-- Claim fixture for C6: rejected claim submitted on day 50, inside the
previous 30-day window of a clock reading of day 100. -/
def claimC6 : ClaimData :=
  { id := "c6".toList, providerId := "p".toList, submissionDate := 50,
    amount := 100, status := Status.rejected, rejectionReason := none,
    processingTime := 1, diagnosisCode := [], procedureCode := [] }

/-- Claim fixture for C6, year-over-year side: rejected claim whose
timestamp maps to the previous year 2024 under the identity year
projection. -/
def claimC6y : ClaimData :=
  { id := "c6y".toList, providerId := "p".toList, submissionDate := 2024,
    amount := 100, status := Status.rejected, rejectionReason := none,
    processingTime := 1, diagnosisCode := [], procedureCode := [] }

unseal Rat.mul Rat.inv Rat.add Rat.sub in
/-- Claim C6, code bug: with an empty current 30-day window and a
previous window containing one rejected claim, the period comparison
divides the unguarded NaN current rate and reports a non-finite
percentage change; likewise the year-over-year rejection-rate change is
non-finite when the current year has no claims. Both contradict the
division-guard property the specification states. -/
theorem C6_nan_escapes :
    (compareTimePeriods 100 [claimC6]).percentageChange = none ∧
    ((calculateYearOverYearComparison (fun y => y) 2025 [claimC6y]).map
      fun r => r.rejectionRateChange) = some none := by
  constructor
  · decide
  · decide

/-- Claim fixture for the C10 counterexample: approved claim with id
"a". -/
def claimC10a : ClaimData :=
  { id := "a".toList, providerId := "p".toList, submissionDate := 0,
    amount := 100, status := Status.approved, rejectionReason := none,
    processingTime := 1, diagnosisCode := [], procedureCode := [] }

/-- Claim fixture for the C10 counterexample: rejected claim with the
same id "a". -/
def claimC10b : ClaimData :=
  { id := "a".toList, providerId := "p".toList, submissionDate := 0,
    amount := 100, status := Status.rejected, rejectionReason := none,
    processingTime := 1, diagnosisCode := [], procedureCode := [] }

/-- Claim set fixture for the C10 counterexample: two claims sharing one
id. -/
def claimsC10 : List ClaimData := [claimC10a, claimC10b]

unseal Rat.mul Rat.inv Rat.add Rat.sub in
/-- Claim C10, counterexample: with two claims sharing the id "a" (first
approved, second rejected) every prediction is rejected, but the
accuracy lookup finds the first claim with each id, so the reported
accuracy is 0 while the percentage of rejected input claims is 50. -/
theorem C10_counterexample :
    (buildClaimApprovalModel claimsC10).1 = 0 ∧
    ((claimsC10.filter fun c =>
        decide (c.status = Status.rejected)).length : ℚ) /
      (claimsC10.length : ℚ) * 100 = 50 ∧
    (0 : ℚ) ≠ 50 := by
  refine ⟨by decide, by decide, by norm_num⟩

/-- Helper: the score of a prediction never exceeds 0.5, its predicted
status is always rejected, and its claim id is the id of the claim. -/
theorem predictClaim_eval (claims : List ClaimData) (c : ClaimData) :
    (predictClaim claims c).confidence ≤ 1 / 2 ∧
    (predictClaim claims c).predictedStatus = Status.rejected ∧
    (predictClaim claims c).claimId = c.id := by
  by_cases h1 : c.amount > 10000 <;>
    by_cases h2 : rejectionRateOfProvider claims c.providerId > 20 <;>
      by_cases h3 : c.processingTime > 15 <;>
        simp [predictClaim, h1, h2, h3, min_def, max_def] <;>
          norm_num

/-- Helper: with pairwise distinct claim ids, `find?` by the id of a
member returns that member. -/
theorem find?_id_nodup :
    ∀ (claims : List ClaimData), (claims.map fun c => c.id).Nodup →
      ∀ c ∈ claims, claims.find? (fun x => decide (x.id = c.id)) = some c
  | [], _, c, hc => absurd hc (List.not_mem_nil c)
  | a :: t, hnd, c, hc => by
    rw [List.map_cons, List.nodup_cons] at hnd
    rcases List.mem_cons.mp hc with rfl | hct
    · rw [List.find?_cons_of_pos]
      simp
    · have hne : ¬ (a.id = c.id) := by
        intro he
        exact hnd.1 (he ▸ List.mem_map_of_mem (fun x => x.id) hct)
      rw [List.find?_cons_of_neg _ (by simp [hne])]
      exact find?_id_nodup t hnd.2 c hct

/-- Claim C10 (amended): every approval-likelihood score is at most 0.5
and every predicted status is rejected; when the claim ids are pairwise
distinct the reported accuracy equals the percentage of input claims
whose recorded status is rejected (and 0 for the empty claim list). -/
theorem C10_rejected_model (claims : List ClaimData) :
    (((buildClaimApprovalModel claims).2).all fun p =>
      decide (p.confidence ≤ 1 / 2) &&
        decide (p.predictedStatus = Status.rejected)) = true ∧
    ((claims.map fun c => c.id).Nodup →
      (buildClaimApprovalModel claims).1 =
        if claims.length = 0 then 0
        else ((claims.filter fun c =>
            decide (c.status = Status.rejected)).length : ℚ) /
          (claims.length : ℚ) * 100) := by
  constructor
  · rw [List.all_eq_true]
    intro p hp
    have hp2 : p ∈ claims.map (predictClaim claims) := hp
    obtain ⟨c, _, rfl⟩ := List.mem_map.mp hp2
    have h := predictClaim_eval claims c
    rw [Bool.and_eq_true, decide_eq_true_eq, decide_eq_true_eq]
    exact ⟨h.1, h.2.1⟩
  · intro hnodup
    show (if (claims.map (predictClaim claims)).length > 0 then
        ((((claims.map (predictClaim claims)).filter fun p =>
          match claims.find? (fun x => decide (x.id = p.claimId)) with
          | some actualClaim => decide (actualClaim.status = p.predictedStatus)
          | none => false).length : ℚ) /
            (((claims.map (predictClaim claims)).length : ℚ))) * 100
      else 0) = _
    rw [List.length_map, List.filter_map]
    cases claims with
    | nil => simp
    | cons a t =>
      rw [if_pos (by simp), if_neg (by simp), List.length_map]
      have hcong : List.filter
          ((fun p =>
            match (a :: t).find? (fun x => decide (x.id = p.claimId)) with
            | some actualClaim => decide (actualClaim.status = p.predictedStatus)
            | none => false) ∘ predictClaim (a :: t)) (a :: t) =
          List.filter (fun c => decide (c.status = Status.rejected)) (a :: t) := by
        apply List.filter_congr
        intro c hc
        have heval := predictClaim_eval (a :: t) c
        simp only [Function.comp_apply, heval.2.2]
        rw [find?_id_nodup (a :: t) hnodup c hc]
        simp only [heval.2.1]
      rw [hcong]
  


/-- Fixture claims for the C9 and C10 witnesses. -/
def claimC10w1 : ClaimData :=
  { id := "a".toList, providerId := "p".toList, submissionDate := 0,
    amount := 100, status := Status.rejected, rejectionReason := none,
    processingTime := 1, diagnosisCode := [], procedureCode := [] }

/-- Second fixture claim for the C10 witness, distinct id. -/
def claimC10w2 : ClaimData :=
  { id := "b".toList, providerId := "p".toList, submissionDate := 0,
    amount := 100, status := Status.approved, rejectionReason := none,
    processingTime := 1, diagnosisCode := [], procedureCode := [] }

/-- Claim set with pairwise distinct ids for the C10 witness. -/
def claimsC10w : List ClaimData := [claimC10w1, claimC10w2]

/-- Witness for C10: the amended accuracy statement applied at a concrete
claim set with distinct ids. -/
theorem C10_rejected_model_witness :
    (buildClaimApprovalModel claimsC10w).1 =
      if claimsC10w.length = 0 then 0
      else ((claimsC10w.filter fun c =>
          decide (c.status = Status.rejected)).length : ℚ) /
        (claimsC10w.length : ℚ) * 100 :=
  (C10_rejected_model claimsC10w).2 (by decide)

unseal Rat.mul Rat.inv Rat.add Rat.sub in
/-- Witness for C9: the theorem applied at concrete inputs, one hitting
the absent-key guard and one hitting the increasing threshold. -/
theorem C9_trend_labels_witness :
    determineTrend [] ([] : List (Str × List ClaimData)) = Trend.stable ∧
    determineTrend "2024-02".toList (mdC9 111) = Trend.increasing := by
  constructor
  · exact C9_trend_labels.1 [] [] (Or.inl (by decide))
  · exact ((C9_trend_labels.2.1 (mdC9 111) "2024-02".toList 0 (by decide)).1).mpr
      (by decide)

/-- Helper: filtering then `filterMap` fuses into one `filterMap`. -/
theorem filterMap_filter_fused {α β : Type} (p : α → Bool) (g : α → Option β) :
    ∀ l : List α,
      (l.filter p).filterMap g = l.filterMap fun a => if p a then g a else none
  | [] => rfl
  | a :: t => by
    by_cases h : p a = true <;>
      cases hg : g a <;>
        simp [List.filter_cons, h, hg, List.filterMap_cons,
          filterMap_filter_fused p g t]

/-- Ranking of suggestion priorities, highest first. -/
def prioRank : Priority → Nat
  | Priority.high => 2
  | Priority.medium => 1
  | Priority.low => 0

/-- Rule fixture for C8 of severity high. -/
def ruleC8H : RejectionRule :=
  { id := "rh".toList, name := "H".toList, description := [],
    category := Category.technical, subcategory := [],
    keywords := [], keywordsAr := [], codes := [],
    severity := Severity.high, autoFix := false, fixSuggestion := [],
    providerId := none, providerSpecific := false, isActive := true }

/-- Rule fixture for C8 of severity critical. -/
def ruleC8C : RejectionRule :=
  { id := "rc".toList, name := "C".toList, description := [],
    category := Category.technical, subcategory := [],
    keywords := [], keywordsAr := [], codes := [],
    severity := Severity.critical, autoFix := false, fixSuggestion := [],
    providerId := none, providerSpecific := false, isActive := true }

/-- Engine fixture for C8. -/
def engC8 : RejectionRulesEngine := { rules := [ruleC8H, ruleC8C], providers := [] }

/-- Analysis fixture referencing the high-severity rule. -/
def anC8H : RejectionAnalysis :=
  { ruleId := "rh".toList, ruleName := [], matchedClaims := [],
    confidence := 0, suggestedAction := [], estimatedSavings := 0 }

/-- Analysis fixture referencing the critical rule. -/
def anC8C : RejectionAnalysis :=
  { ruleId := "rc".toList, ruleName := [], matchedClaims := [],
    confidence := 0, suggestedAction := [], estimatedSavings := 0 }

/-- Analyses fixture for C8: high-severity analysis first. -/
def analysesC8 : List RejectionAnalysis := [anC8H, anC8C]

/-- Claim C8, counterexample: with a high-severity analysis listed before
a critical one, the generated priorities are medium, high, medium — the
output is in generation order, not sorted highest priority first. -/
theorem C8_counterexample :
    ((generateTrainingSuggestions engC8 (fun _ => []) analysesC8 none).map
      fun s => s.priority) =
        [Priority.medium, Priority.high, Priority.medium] ∧
    ¬ ((generateTrainingSuggestions engC8 (fun _ => []) analysesC8 none).map
        fun s => s.priority).Pairwise (fun a b => prioRank b ≤ prioRank a) := by
  constructor
  · decide
  · decide

/-- Claim C8 (amended): suggestion generation emits, in order, one
suggestion per rule analysis whose severity is critical (high priority)
or high (medium priority), followed by the pattern suggestions (medium
priority) — one when the technical analysis count exceeds the medical
analysis count and one when the medical analysis count exceeds 5 — and
truncates to at most 10 suggestions; the output keeps this generation
order and is not sorted by priority. -/
theorem C8_suggestion_generation (e : RejectionRulesEngine) (fmt : ℚ → Str)
    (analyses : List RejectionAnalysis) (pid : Option Str) :
    (generateTrainingSuggestions e fmt analyses pid).length ≤ 10 ∧
    ((generateTrainingSuggestions e fmt analyses pid).map fun s => s.priority) =
      ((analyses.filterMap fun a =>
          match findRuleById e a.ruleId with
          | some r =>
            if r.severity = Severity.critical then some Priority.high
            else if r.severity = Severity.high then some Priority.medium
            else none
          | none => none) ++
        List.replicate (identifyPatterns e analyses).length Priority.medium).take
          10 ∧
    (identifyPatterns e analyses).length =
      ((if technicalAnalysisCount e analyses > medicalAnalysisCount e analyses
          then 1 else 0) +
        (if medicalAnalysisCount e analyses > 5 then 1 else 0)) := by
  refine ⟨List.length_take_le 10 _, ?_, ?_⟩
  · unfold generateTrainingSuggestions
    rw [List.map_take, List.map_append]
    have h1 : ((ruleSuggestions e fmt analyses).map fun s => s.priority) =
        analyses.filterMap fun a =>
          match findRuleById e a.ruleId with
          | some r =>
            if r.severity = Severity.critical then some Priority.high
            else if r.severity = Severity.high then some Priority.medium
            else none
          | none => none := by
      unfold ruleSuggestions
      rw [filterMap_filter_fused, List.map_filterMap]
      apply congrArg (fun f => List.filterMap f analyses)
      funext a
      cases hr : findRuleById e a.ruleId with
      | none => simp [isCriticalOrHighAnalysis, hr]
      | some r =>
        cases hs : r.severity <;>
          simp [isCriticalOrHighAnalysis, hr, hs, mkRuleSuggestion]
    have h2 : (((identifyPatterns e analyses).map mkPatternSuggestion).map
        fun s => s.priority) =
        List.replicate (identifyPatterns e analyses).length Priority.medium := by
      induction identifyPatterns e analyses with
      | nil => rfl
      | cons p t ih =>
        simp only [List.map_cons, List.length_cons, List.replicate, ih]
        rfl
    rw [h1, h2]
  · unfold identifyPatterns
    rw [List.length_append]
    by_cases ht :
        technicalAnalysisCount e analyses > medicalAnalysisCount e analyses <;>
      by_cases hm : medicalAnalysisCount e analyses > 5 <;>
        simp [ht, hm]

/-- Helper: bind of a successful `Except` computation. -/
theorem except_bind_ok {ε α β : Type} (a : α) (f : α → Except ε β) :
    (Except.ok a >>= f : Except ε β) = f a := rfl

/-- Helper: bind of a failed `Except` computation. -/
theorem except_bind_error {ε α β : Type} (e : ε) (f : α → Except ε β) :
    ((Except.error e : Except ε α) >>= f : Except ε β) = Except.error e := rfl

deriving instance DecidableEq for Except

/-- Helper: success flag of a successful `Except` computation. -/
theorem except_isOk_ok {ε α : Type} (a : α) :
    (Except.ok a : Except ε α).isOk = true := rfl

/-- Helper: success flag of a failed `Except` computation. -/
theorem except_isOk_error {ε α : Type} (e : ε) :
    (Except.error e : Except ε α).isOk = false := rfl

/-- Helper: sum of squared deviations of a constant series is 0. -/
theorem corrDenSq_eq_zero_of_const {x : List ℚ} {v : ℚ} (hne : x ≠ [])
    (hv : ∀ a ∈ x, a = v) : corrDenSq x = 0 := by
  have hlen : (x.length : ℚ) ≠ 0 := by
    exact_mod_cast fun h => hne (List.length_eq_zero.mp h)
  have hsum : x.sum = (x.length : ℚ) * v := by
    rw [List.sum_eq_card_nsmul x v hv, nsmul_eq_mul]
  have hmean : meanQ x = v := by
    unfold meanQ
    rw [hsum, mul_div_cancel_left₀ v hlen]
  unfold corrDenSq
  apply List.sum_eq_zero
  intro z hz
  obtain ⟨a, ha, rfl⟩ := List.mem_map.mp hz
  rw [hv a ha, hmean, sub_self]
  norm_num

/-- Claim fixture for C4: one claim with a nonpositive amount, so the
positive-amount series is empty. -/
def claimC4 : ClaimData :=
  { id := "c4".toList, providerId := "p".toList, submissionDate := 0,
    amount := 0, status := Status.approved, rejectionReason := none,
    processingTime := 5, diagnosisCode := [], procedureCode := [] }

unseal Rat.mul Rat.inv Rat.add Rat.sub in
/-- Claim C4, counterexample: a nonempty claim list on which the
statistical analysis still fails, because the filtered positive-amount
series is empty and the library mean of an empty series throws. -/
theorem C4_counterexample :
    ([claimC4] : List ClaimData) ≠ [] ∧
      (performStatisticalAnalysis [claimC4]).isOk = false := by
  constructor
  · simp
  · decide

/-- Claim C4 (amended): the statistical analysis raises on the empty
claim list, and in general it raises exactly when the claim list is
empty or it contains no claim with positive amount or none with positive
processing time (the filtered series the library statistics run on is
then empty and the library throws); for every other claim list it
returns a summary. -/
theorem C4_empty_failure (claims : List ClaimData) :
    (claims = [] →
      performStatisticalAnalysis claims =
        Except.error "No claims data provided for analysis") ∧
    ((performStatisticalAnalysis claims).isOk = true ↔
      ((claims.map fun c => c.amount).filter (fun a => decide (a > 0)) ≠ [] ∧
        (claims.map fun c => c.processingTime).filter
          (fun p => decide (p > 0)) ≠ [])) := by
  constructor
  · intro h
    subst h
    rfl
  · unfold performStatisticalAnalysis
    by_cases hc : claims.length = 0
    · rw [if_pos hc]
      have hcl : claims = [] := List.length_eq_zero.mp hc
      subst hcl
      simp [except_isOk_error]
    · rw [if_neg hc]
      cases ha : (claims.map fun c => c.amount).filter (fun a => decide (a > 0)) with
      | nil =>
        simp [ssMean, except_isOk_error, except_bind_error]
      | cons a as =>
        cases hp : (claims.map fun c => c.processingTime).filter
            (fun p => decide (p > 0)) with
        | nil =>
          simp [ssMean, ssMedian, ssQuantile, ssVariance, ssMin, ssMax,
            except_bind_ok, except_bind_error, except_isOk_error]
        | cons p ps =>
          simp [ssMean, ssMedian, ssQuantile, ssVariance, ssMin, ssMax,
            except_bind_ok, except_isOk_ok]

/-- Witness for C4: the explicit error on the empty claim list. -/
theorem C4_empty_failure_witness :
    performStatisticalAnalysis [] =
      Except.error "No claims data provided for analysis" :=
  (C4_empty_failure []).1 rfl

/-- Claim fixtures for C5: per-claim pairs (1, 3), (2, 4), (100, 0). -/
def claimC5a : ClaimData :=
  { id := "c5a".toList, providerId := "p".toList, submissionDate := 0,
    amount := 1, status := Status.approved, rejectionReason := none,
    processingTime := 3, diagnosisCode := [], procedureCode := [] }

/-- Second C5 fixture claim, pair (2, 4). -/
def claimC5b : ClaimData :=
  { id := "c5b".toList, providerId := "p".toList, submissionDate := 0,
    amount := 2, status := Status.approved, rejectionReason := none,
    processingTime := 4, diagnosisCode := [], procedureCode := [] }

/-- Third C5 fixture claim, pair (100, 0): its processing time is not
positive, so the filtered series misalign. -/
def claimC5c : ClaimData :=
  { id := "c5c".toList, providerId := "p".toList, submissionDate := 0,
    amount := 100, status := Status.approved, rejectionReason := none,
    processingTime := 0, diagnosisCode := [], procedureCode := [] }

/-- Claim set fixture for the C5 counterexample. -/
def claimsC5 : List ClaimData := [claimC5a, claimC5b, claimC5c]

unseal Rat.mul Rat.inv Rat.add Rat.sub in
/-- Claim C5, counterexample: on the per-claim pairs (1,3), (2,4),
(100,0) the analysis filters the two series independently, gets lengths
3 and 2, and returns correlation 0 (represented (0, 1)); the Pearson
correlation of the per-claim pairs in claim order is a nonzero value, so
the two differ. -/
theorem C5_counterexample :
    ((performStatisticalAnalysis claimsC5).map
      fun s => s.amountVsProcessingTime) = Except.ok (0, 1) ∧
    ¬ corrValEq (0, 1)
      (calculateCorrelation (claimsC5.map fun c => c.amount)
        (claimsC5.map fun c => c.processingTime)) := by
  constructor
  · decide
  · decide

/-- Claim C5 (amended): when every claim has positive amount and positive
processing time the returned correlation is exactly the represented
Pearson correlation of the per-claim pairs (amount_i, processingTime_i)
in claim order (in general the code correlates the two independently
filtered positive series); and whenever either series is constant (zero
variance) the correlation is 0 (represented (0, 1)), never NaN. -/
theorem C5_correlation (claims : List ClaimData) :
    (claims ≠ [] →
      (∀ c ∈ claims, 0 < c.amount) →
      (∀ c ∈ claims, 0 < c.processingTime) →
      ((performStatisticalAnalysis claims).map
        fun s => s.amountVsProcessingTime) =
        Except.ok (calculateCorrelation (claims.map fun c => c.amount)
          (claims.map fun c => c.processingTime))) ∧
    (∀ x y : List ℚ,
      ((∃ v, ∀ a ∈ x, a = v) ∨ (∃ v, ∀ b ∈ y, b = v)) →
      calculateCorrelation x y = (0, 1)) := by
  constructor
  · intro hne hpa hpt
    have hfa : (claims.map fun c => c.amount).filter (fun a => decide (a > 0)) =
        claims.map fun c => c.amount := by
      rw [List.filter_eq_self]
      intro a ha
      obtain ⟨c, hc, rfl⟩ := List.mem_map.mp ha
      exact decide_eq_true (hpa c hc)
    have hfp : (claims.map fun c => c.processingTime).filter
        (fun p => decide (p > 0)) = claims.map fun c => c.processingTime := by
      rw [List.filter_eq_self]
      intro p hp
      obtain ⟨c, hc, rfl⟩ := List.mem_map.mp hp
      exact decide_eq_true (hpt c hc)
    unfold performStatisticalAnalysis
    rw [if_neg fun h => hne (List.length_eq_zero.mp h), hfa, hfp]
    cases claims with
    | nil => exact absurd rfl hne
    | cons c cs =>
      simp [List.map_cons, ssMean, ssMedian, ssQuantile, ssVariance, ssMin,
        ssMax, except_bind_ok, Except.map]
  · intro x y h
    unfold calculateCorrelation
    by_cases hg : x.length ≠ y.length ∨ x.length = 0
    · rw [if_pos hg]
    · rw [if_neg hg]
      push_neg at hg
      have hx0 : x ≠ [] := fun he => hg.2 (by rw [he]; rfl)
      have hy0 : y ≠ [] := fun he => hg.2 (by rw [hg.1, he]; rfl)
      have hzero : corrDenSq x * corrDenSq y = 0 := by
        rcases h with ⟨v, hv⟩ | ⟨v, hv⟩
        · rw [corrDenSq_eq_zero_of_const hx0 hv, zero_mul]
        · rw [corrDenSq_eq_zero_of_const hy0 hv, mul_zero]
      rw [if_pos hzero]

/-- Claim set with all-positive amounts and processing times for the C5
witness. -/
def claimsC5w : List ClaimData := [claimC5a, claimC5b]

unseal Rat.mul Rat.inv Rat.add Rat.sub in
/-- Witness for C5: the amended statement applied at concrete inputs. -/
theorem C5_correlation_witness :
    ((performStatisticalAnalysis claimsC5w).map
      fun s => s.amountVsProcessingTime) =
      Except.ok (calculateCorrelation (claimsC5w.map fun c => c.amount)
        (claimsC5w.map fun c => c.processingTime)) ∧
    calculateCorrelation [2, 2] [3, 4] = (0, 1) := by
  constructor
  · exact (C5_correlation claimsC5w).1 (by decide) (by decide) (by decide)
  · exact (C5_correlation []).2 [2, 2] [3, 4] (Or.inl ⟨2, by decide⟩)

end HCA
